import Mathlib

/-!
Verification of the type-effectiveness engine of the pokedict2 domain layer:
the 18-member `PokemonType` catalog, the `Effectiveness` grade enum with its
quarter-unit integer weights, the 18×18 matchup table
`PokemonType.effectiveness_against`, and the `TypeSet` combination and bulk
query operations.  Rust enums become Lean inductives; the panicking
`Effectiveness::from_multiplier` becomes an `Option`-returning function whose
`none` branch corresponds to the panic, so "the panic is unreachable" is
"`defend_against` always returns `some`".
-/

/-- The 18 Pokemon types, in the declaration order of the Rust enum
`PokemonType` in `src/backend/src/domain/valueobject/pokemontype.rs`. -/
inductive PokemonType where
  | Fire
  | Water
  | Grass
  | Electric
  | Psychic
  | Normal
  | Ghost
  | Dragon
  | Ice
  | Fighting
  | Flying
  | Bug
  | Rock
  | Ground
  | Poison
  | Steel
  | Fairy
  | Dark
  deriving DecidableEq, Fintype

/-- The six effectiveness grades, from the Rust enum `Effectiveness` in
`src/backend/src/domain/valueobject/effective.rs`.  The Rust enum carries
`repr(u32)` discriminants 0,1,2,4,8,16, embedded below as
`get_multiplier_tocalc`. -/
inductive Effectiveness where
  | NoEffect
  | Quarter
  | Half
  | Neutral
  | Double
  | Quadruple
  deriving DecidableEq, Fintype

namespace Effectiveness

/-- The `repr(u32)` discriminant of the grade (`self as u32` in Rust):
NoEffect=0, Quarter=1, Half=2, Neutral=4, Double=8, Quadruple=16. -/
def get_multiplier_tocalc : Effectiveness → Nat
  | NoEffect => 0
  | Quarter => 1
  | Half => 2
  | Neutral => 4
  | Double => 8
  | Quadruple => 16

/-- `Effectiveness::multiplier`, which in Rust returns
`self as u32 as f32 / 4.0`.  Modelled in ℚ: each discriminant 0,1,2,4,8,16
is exactly representable in f32 and its division by 4.0 (a power of two) is
exact, so the rational model agrees with the f32 computation bit-for-bit. -/
def multiplier (e : Effectiveness) : ℚ :=
  (e.get_multiplier_tocalc : ℚ) / 4

/-- `Effectiveness::from_multiplier`.  The Rust function panics on any
argument outside {0,1,2,4,8,16}; that panic branch is modelled as `none`. -/
def from_multiplier : Nat → Option Effectiveness
  | 0 => some NoEffect
  | 1 => some Quarter
  | 2 => some Half
  | 4 => some Neutral
  | 8 => some Double
  | 16 => some Quadruple
  | _ => none

end Effectiveness

namespace PokemonType

/-- `PokemonType::all_types`: the canonical ordered 18-type catalog. -/
def all_types : List PokemonType :=
  [Normal, Fire, Water, Grass, Electric, Ice, Fighting, Poison, Ground,
   Flying, Psychic, Bug, Rock, Ghost, Dragon, Dark, Steel, Fairy]

/-- `PokemonType::effectiveness_against`: attacker `self` versus `defender`,
transcribed arm by arm from the Rust `match`, default `Neutral`. -/
def effectiveness_against (self defender : PokemonType) : Effectiveness :=
  match self, defender with
  -- Normal
  | Normal, Rock | Normal, Steel => .Half
  | Normal, Ghost => .NoEffect
  -- Fire
  | Fire, Fire | Fire, Water | Fire, Rock | Fire, Dragon => .Half
  | Fire, Grass | Fire, Ice | Fire, Bug | Fire, Steel => .Double
  -- Water
  | Water, Water | Water, Grass | Water, Dragon => .Half
  | Water, Fire | Water, Ground | Water, Rock => .Double
  -- Grass
  | Grass, Fire | Grass, Grass | Grass, Poison | Grass, Flying
  | Grass, Bug | Grass, Dragon | Grass, Steel => .Half
  | Grass, Water | Grass, Ground | Grass, Rock => .Double
  -- Electric
  | Electric, Electric | Electric, Grass | Electric, Dragon => .Half
  | Electric, Ground => .NoEffect
  | Electric, Water | Electric, Flying => .Double
  -- Ice
  | Ice, Fire | Ice, Water | Ice, Ice | Ice, Steel => .Half
  | Ice, Grass | Ice, Ground | Ice, Flying | Ice, Dragon => .Double
  -- Fighting
  | Fighting, Poison | Fighting, Flying | Fighting, Psychic
  | Fighting, Bug | Fighting, Fairy => .Half
  | Fighting, Ghost => .NoEffect
  | Fighting, Normal | Fighting, Ice | Fighting, Rock
  | Fighting, Dark | Fighting, Steel => .Double
  -- Poison
  | Poison, Poison | Poison, Ground | Poison, Rock | Poison, Ghost => .Half
  | Poison, Steel => .NoEffect
  | Poison, Grass | Poison, Fairy => .Double
  -- Ground
  | Ground, Grass | Ground, Bug => .Half
  | Ground, Flying => .NoEffect
  | Ground, Fire | Ground, Electric | Ground, Poison
  | Ground, Rock | Ground, Steel => .Double
  -- Flying
  | Flying, Electric | Flying, Rock | Flying, Steel => .Half
  | Flying, Grass | Flying, Fighting | Flying, Bug => .Double
  -- Psychic
  | Psychic, Psychic | Psychic, Steel => .Half
  | Psychic, Dark => .NoEffect
  | Psychic, Fighting | Psychic, Poison => .Double
  -- Bug
  | Bug, Fire | Bug, Fighting | Bug, Poison | Bug, Flying
  | Bug, Ghost | Bug, Steel | Bug, Fairy => .Half
  | Bug, Grass | Bug, Psychic | Bug, Dark => .Double
  -- Rock
  | Rock, Fighting | Rock, Ground | Rock, Steel => .Half
  | Rock, Fire | Rock, Ice | Rock, Flying | Rock, Bug => .Double
  -- Ghost
  | Ghost, Dark => .Half
  | Ghost, Normal => .NoEffect
  | Ghost, Psychic | Ghost, Ghost => .Double
  -- Dragon
  | Dragon, Steel => .Half
  | Dragon, Fairy => .NoEffect
  | Dragon, Dragon => .Double
  -- Dark
  | Dark, Fighting | Dark, Dark | Dark, Fairy => .Half
  | Dark, Psychic | Dark, Ghost => .Double
  -- Steel
  | Steel, Fire | Steel, Water | Steel, Electric | Steel, Steel => .Half
  | Steel, Ice | Steel, Rock | Steel, Fairy => .Double
  -- Fairy
  | Fairy, Fire | Fairy, Poison | Fairy, Steel => .Half
  | Fairy, Fighting | Fairy, Dragon | Fairy, Dark => .Double
  -- default
  | _, _ => .Neutral

end PokemonType

/-- `TypeSet`: a mandatory primary type and an optional secondary type,
from `src/backend/src/domain/valueobject/typeset.rs`. -/
structure TypeSet where
  primary : PokemonType
  secondary : Option PokemonType
  deriving DecidableEq, Fintype

namespace TypeSet

/-- `TypeSet::defend_against`.  With a secondary type present, the two
quarter-unit weights are multiplied and divided by 4 (Rust `u32` division,
here `Nat` division — identical on these small values), then converted back
through `from_multiplier`; the Rust panic inside `from_multiplier` is the
`none` result. -/
def defend_against (ts : TypeSet) (attacking_type : PokemonType) :
    Option Effectiveness :=
  let primary_effectiveness := attacking_type.effectiveness_against ts.primary
  match ts.secondary with
  | some secondary_type =>
      let secondary_effectiveness :=
        attacking_type.effectiveness_against secondary_type
      let combined_multiplier :=
        primary_effectiveness.get_multiplier_tocalc *
          secondary_effectiveness.get_multiplier_tocalc / 4
      Effectiveness.from_multiplier combined_multiplier
  | none => some primary_effectiveness

/-- `TypeSet::defend_against_multiple`: map `defend_against` over the input
sequence, pairing each attacker with its result. -/
def defend_against_multiple (ts : TypeSet)
    (attacking_types : List PokemonType) :
    List (PokemonType × Option Effectiveness) :=
  attacking_types.map (fun attacking_type =>
    (attacking_type, ts.defend_against attacking_type))

/-- `TypeSet::defend_against_all`: `defend_against` over the canonical
18-type catalog. -/
def defend_against_all (ts : TypeSet) :
    List (PokemonType × Option Effectiveness) :=
  PokemonType.all_types.map (fun attacking_type =>
    (attacking_type, ts.defend_against attacking_type))

end TypeSet

/-- The (attacker, defender) pairs explicitly listed as match arms in the
Rust `effectiveness_against` table; every pair outside this list falls into
the default `Neutral` arm. -/
def listedChartPairs : List (PokemonType × PokemonType) :=
  [(PokemonType.Normal, PokemonType.Rock), (PokemonType.Normal, PokemonType.Steel), (PokemonType.Normal, PokemonType.Ghost),
   (PokemonType.Fire, PokemonType.Fire), (PokemonType.Fire, PokemonType.Water), (PokemonType.Fire, PokemonType.Rock), (PokemonType.Fire, PokemonType.Dragon),
   (PokemonType.Fire, PokemonType.Grass), (PokemonType.Fire, PokemonType.Ice), (PokemonType.Fire, PokemonType.Bug), (PokemonType.Fire, PokemonType.Steel),
   (PokemonType.Water, PokemonType.Water), (PokemonType.Water, PokemonType.Grass), (PokemonType.Water, PokemonType.Dragon),
   (PokemonType.Water, PokemonType.Fire), (PokemonType.Water, PokemonType.Ground), (PokemonType.Water, PokemonType.Rock),
   (PokemonType.Grass, PokemonType.Fire), (PokemonType.Grass, PokemonType.Grass), (PokemonType.Grass, PokemonType.Poison), (PokemonType.Grass, PokemonType.Flying),
   (PokemonType.Grass, PokemonType.Bug), (PokemonType.Grass, PokemonType.Dragon), (PokemonType.Grass, PokemonType.Steel),
   (PokemonType.Grass, PokemonType.Water), (PokemonType.Grass, PokemonType.Ground), (PokemonType.Grass, PokemonType.Rock),
   (PokemonType.Electric, PokemonType.Electric), (PokemonType.Electric, PokemonType.Grass), (PokemonType.Electric, PokemonType.Dragon),
   (PokemonType.Electric, PokemonType.Ground), (PokemonType.Electric, PokemonType.Water), (PokemonType.Electric, PokemonType.Flying),
   (PokemonType.Ice, PokemonType.Fire), (PokemonType.Ice, PokemonType.Water), (PokemonType.Ice, PokemonType.Ice), (PokemonType.Ice, PokemonType.Steel),
   (PokemonType.Ice, PokemonType.Grass), (PokemonType.Ice, PokemonType.Ground), (PokemonType.Ice, PokemonType.Flying), (PokemonType.Ice, PokemonType.Dragon),
   (PokemonType.Fighting, PokemonType.Poison), (PokemonType.Fighting, PokemonType.Flying), (PokemonType.Fighting, PokemonType.Psychic),
   (PokemonType.Fighting, PokemonType.Bug), (PokemonType.Fighting, PokemonType.Fairy), (PokemonType.Fighting, PokemonType.Ghost),
   (PokemonType.Fighting, PokemonType.Normal), (PokemonType.Fighting, PokemonType.Ice), (PokemonType.Fighting, PokemonType.Rock),
   (PokemonType.Fighting, PokemonType.Dark), (PokemonType.Fighting, PokemonType.Steel),
   (PokemonType.Poison, PokemonType.Poison), (PokemonType.Poison, PokemonType.Ground), (PokemonType.Poison, PokemonType.Rock),
   (PokemonType.Poison, PokemonType.Ghost), (PokemonType.Poison, PokemonType.Steel), (PokemonType.Poison, PokemonType.Grass), (PokemonType.Poison, PokemonType.Fairy),
   (PokemonType.Ground, PokemonType.Grass), (PokemonType.Ground, PokemonType.Bug), (PokemonType.Ground, PokemonType.Flying),
   (PokemonType.Ground, PokemonType.Fire), (PokemonType.Ground, PokemonType.Electric), (PokemonType.Ground, PokemonType.Poison),
   (PokemonType.Ground, PokemonType.Rock), (PokemonType.Ground, PokemonType.Steel),
   (PokemonType.Flying, PokemonType.Electric), (PokemonType.Flying, PokemonType.Rock), (PokemonType.Flying, PokemonType.Steel),
   (PokemonType.Flying, PokemonType.Grass), (PokemonType.Flying, PokemonType.Fighting), (PokemonType.Flying, PokemonType.Bug),
   (PokemonType.Psychic, PokemonType.Psychic), (PokemonType.Psychic, PokemonType.Steel), (PokemonType.Psychic, PokemonType.Dark),
   (PokemonType.Psychic, PokemonType.Fighting), (PokemonType.Psychic, PokemonType.Poison),
   (PokemonType.Bug, PokemonType.Fire), (PokemonType.Bug, PokemonType.Fighting), (PokemonType.Bug, PokemonType.Poison), (PokemonType.Bug, PokemonType.Flying),
   (PokemonType.Bug, PokemonType.Ghost), (PokemonType.Bug, PokemonType.Steel), (PokemonType.Bug, PokemonType.Fairy),
   (PokemonType.Bug, PokemonType.Grass), (PokemonType.Bug, PokemonType.Psychic), (PokemonType.Bug, PokemonType.Dark),
   (PokemonType.Rock, PokemonType.Fighting), (PokemonType.Rock, PokemonType.Ground), (PokemonType.Rock, PokemonType.Steel),
   (PokemonType.Rock, PokemonType.Fire), (PokemonType.Rock, PokemonType.Ice), (PokemonType.Rock, PokemonType.Flying), (PokemonType.Rock, PokemonType.Bug),
   (PokemonType.Ghost, PokemonType.Dark), (PokemonType.Ghost, PokemonType.Normal), (PokemonType.Ghost, PokemonType.Psychic), (PokemonType.Ghost, PokemonType.Ghost),
   (PokemonType.Dragon, PokemonType.Steel), (PokemonType.Dragon, PokemonType.Fairy), (PokemonType.Dragon, PokemonType.Dragon),
   (PokemonType.Dark, PokemonType.Fighting), (PokemonType.Dark, PokemonType.Dark), (PokemonType.Dark, PokemonType.Fairy),
   (PokemonType.Dark, PokemonType.Psychic), (PokemonType.Dark, PokemonType.Ghost),
   (PokemonType.Steel, PokemonType.Fire), (PokemonType.Steel, PokemonType.Water), (PokemonType.Steel, PokemonType.Electric), (PokemonType.Steel, PokemonType.Steel),
   (PokemonType.Steel, PokemonType.Ice), (PokemonType.Steel, PokemonType.Rock), (PokemonType.Steel, PokemonType.Fairy),
   (PokemonType.Fairy, PokemonType.Fire), (PokemonType.Fairy, PokemonType.Poison), (PokemonType.Fairy, PokemonType.Steel),
   (PokemonType.Fairy, PokemonType.Fighting), (PokemonType.Fairy, PokemonType.Dragon), (PokemonType.Fairy, PokemonType.Dark)]

/-- The eight immunity pairs of the table: exactly the (attacker, defender)
pairs whose lookup is `NoEffect`. -/
def immunityPairs : List (PokemonType × PokemonType) :=
  [(PokemonType.Electric, PokemonType.Ground), (PokemonType.Ghost, PokemonType.Normal), (PokemonType.Normal, PokemonType.Ghost),
   (PokemonType.Ground, PokemonType.Flying), (PokemonType.Poison, PokemonType.Steel), (PokemonType.Fighting, PokemonType.Ghost),
   (PokemonType.Psychic, PokemonType.Dark), (PokemonType.Dragon, PokemonType.Fairy)]

set_option maxRecDepth 4000

/-- Claim C1: for every attacking type and every `TypeSet` drawn from the
18-type catalog (duplicate primary/secondary pairs included),
`defend_against` returns one of the six valid grades — i.e. the modelled
panic branch (`none`) of `from_multiplier` is unreachable — and in the
dual-type path the combined integer weight handed to `from_multiplier`
always lies in {0, 1, 2, 4, 8, 16}. -/
theorem defend_against_closure :
    (∀ (a : PokemonType) (ts : TypeSet), (ts.defend_against a).isSome = true) ∧
    (∀ a p s : PokemonType,
      (a.effectiveness_against p).get_multiplier_tocalc *
        (a.effectiveness_against s).get_multiplier_tocalc / 4 ∈
        ([0, 1, 2, 4, 8, 16] : List Nat)) := by
  decide

/-- Claim C2: with no secondary type, `defend_against a` is exactly the
single table lookup `effectiveness_against a primary`; with a secondary
type present, it is the grade whose quarter-unit weight equals
(primary weight * secondary weight) / 4 under integer division. -/
theorem defend_against_combination :
    ∀ (a p : PokemonType),
      ((TypeSet.mk p none).defend_against a = some (a.effectiveness_against p)) ∧
      ∀ s : PokemonType, ∃ e : Effectiveness,
        (TypeSet.mk p (some s)).defend_against a = some e ∧
        e.get_multiplier_tocalc =
          (a.effectiveness_against p).get_multiplier_tocalc *
            (a.effectiveness_against s).get_multiplier_tocalc / 4 := by
  decide

/-- Claim C3, counterexample to the claimed count: the table has exactly
eight (attacker, defender) pairs mapping to `NoEffect`, fewer than the ten
the claim announces. -/
theorem immunity_count_is_eight :
    (Finset.univ.filter (fun q : PokemonType × PokemonType =>
      q.1.effectiveness_against q.2 = Effectiveness.NoEffect)).card = 8 ∧
    (Finset.univ.filter (fun q : PokemonType × PokemonType =>
      q.1.effectiveness_against q.2 = Effectiveness.NoEffect)).card < 10 := by
  decide

/-- Claim C3 (amended: "eight immunities" in place of "ten"): the table
gives Fire→Grass/Ice/Bug/Steel = Double and Fire→Fire/Water/Rock/Dragon =
Half; a lookup is `NoEffect` exactly for the eight pairs Electric→Ground,
Ghost→Normal, Normal→Ghost, Ground→Flying, Poison→Steel, Fighting→Ghost,
Psychic→Dark, Dragon→Fairy; and every pair outside the explicitly listed
match arms is `Neutral`, so the lookup is total with no error case. -/
theorem effectiveness_table_amended :
    (PokemonType.Fire.effectiveness_against PokemonType.Grass = Effectiveness.Double ∧
     PokemonType.Fire.effectiveness_against PokemonType.Ice = Effectiveness.Double ∧
     PokemonType.Fire.effectiveness_against PokemonType.Bug = Effectiveness.Double ∧
     PokemonType.Fire.effectiveness_against PokemonType.Steel = Effectiveness.Double ∧
     PokemonType.Fire.effectiveness_against PokemonType.Fire = Effectiveness.Half ∧
     PokemonType.Fire.effectiveness_against PokemonType.Water = Effectiveness.Half ∧
     PokemonType.Fire.effectiveness_against PokemonType.Rock = Effectiveness.Half ∧
     PokemonType.Fire.effectiveness_against PokemonType.Dragon = Effectiveness.Half) ∧
    (∀ a d : PokemonType,
      a.effectiveness_against d = Effectiveness.NoEffect ↔ (a, d) ∈ immunityPairs) ∧
    (∀ a d : PokemonType,
      (a, d) ∉ listedChartPairs → a.effectiveness_against d = Effectiveness.Neutral) := by
  decide

/-- Claim C3, witness for the default-Neutral hypothesis of the amended
theorem, at the unlisted pair (Normal, Normal). -/
theorem effectiveness_table_amended_witness :
    (PokemonType.Normal, PokemonType.Normal) ∉ listedChartPairs ∧
    PokemonType.Normal.effectiveness_against PokemonType.Normal = Effectiveness.Neutral :=
  ⟨by decide,
   effectiveness_table_amended.2.2 PokemonType.Normal PokemonType.Normal (by decide)⟩

/-- Claim C4: immunity is absorbing — if either the primary or the
secondary lookup is `NoEffect`, the dual-type combined result is
`NoEffect`, whatever the other grade is. -/
theorem immunity_absorbing :
    ∀ (a p s : PokemonType),
      (a.effectiveness_against p = Effectiveness.NoEffect ∨
        a.effectiveness_against s = Effectiveness.NoEffect) →
      (TypeSet.mk p (some s)).defend_against a = some Effectiveness.NoEffect := by
  decide

/-- Claim C4, witness: Ground attacking Rock/Flying — Flying is immune to
Ground, so the combined result is `NoEffect`. -/
theorem immunity_absorbing_witness :
    (PokemonType.Ground.effectiveness_against PokemonType.Rock = Effectiveness.NoEffect ∨
      PokemonType.Ground.effectiveness_against PokemonType.Flying = Effectiveness.NoEffect) ∧
    (TypeSet.mk PokemonType.Rock (some PokemonType.Flying)).defend_against PokemonType.Ground =
      some Effectiveness.NoEffect :=
  ⟨Or.inr (by decide),
   immunity_absorbing PokemonType.Ground PokemonType.Rock PokemonType.Flying
     (Or.inr (by decide))⟩

/-- Claim C5: the catalog `all_types` has length 18, no duplicates, and
contains every `PokemonType`; and for every `TypeSet`,
`defend_against_all` is exactly the catalog mapped through
`defend_against`, so it has 18 entries whose first components are the
catalog in its fixed order (no duplicates, no omissions). -/
theorem defend_against_all_catalog :
    PokemonType.all_types.length = 18 ∧
    PokemonType.all_types.Nodup ∧
    (∀ t : PokemonType, t ∈ PokemonType.all_types) ∧
    (∀ ts : TypeSet, ts.defend_against_all =
      PokemonType.all_types.map (fun t => (t, ts.defend_against t))) ∧
    (∀ ts : TypeSet, (ts.defend_against_all).length = 18) ∧
    (∀ ts : TypeSet, (ts.defend_against_all).map Prod.fst = PokemonType.all_types) := by
  decide

/-- Claim C6: `defend_against_multiple` preserves the input's length and
order — its i-th entry pairs the i-th input attacker with that attacker's
own `defend_against` result, duplicates computed independently. -/
theorem defend_against_multiple_projection :
    ∀ (ts : TypeSet) (ats : List PokemonType),
      (ts.defend_against_multiple ats).length = ats.length ∧
      ∀ i : Nat, (ts.defend_against_multiple ats)[i]? =
        (ats[i]?).map (fun a => (a, ts.defend_against a)) := by
  intro ts ats
  refine ⟨by simp [TypeSet.defend_against_multiple], fun i => ?_⟩
  simp [TypeSet.defend_against_multiple, List.getElem?_map]

/-- Claim C7: concrete dual-type scenarios — Water/Flying takes Quadruple
from Electric, Steel/Flying takes Quarter from Grass, Rock/Flying takes
NoEffect from Ground. -/
theorem dual_type_scenarios :
    (TypeSet.mk PokemonType.Water (some PokemonType.Flying)).defend_against PokemonType.Electric =
      some Effectiveness.Quadruple ∧
    (TypeSet.mk PokemonType.Steel (some PokemonType.Flying)).defend_against PokemonType.Grass =
      some Effectiveness.Quarter ∧
    (TypeSet.mk PokemonType.Rock (some PokemonType.Flying)).defend_against PokemonType.Ground =
      some Effectiveness.NoEffect := by
  decide

/-- Claim C8: for any weight pair produced by two table lookups with a
common attacker, the product is divisible by 4 (the division is exact),
the combined weight never exceeds 16 (so the out-of-range weight 64 never
occurs), and a single table lookup is never `Quadruple` (or `Quarter`),
hence two lookups can never both be `Quadruple`. -/
theorem combination_division_exact :
    ∀ (a p s : PokemonType),
      4 ∣ (a.effectiveness_against p).get_multiplier_tocalc *
        (a.effectiveness_against s).get_multiplier_tocalc ∧
      (a.effectiveness_against p).get_multiplier_tocalc *
        (a.effectiveness_against s).get_multiplier_tocalc / 4 ≤ 16 ∧
      a.effectiveness_against p ∈
        ([Effectiveness.NoEffect, Effectiveness.Half, Effectiveness.Neutral,
          Effectiveness.Double] : List Effectiveness) := by
  decide

/-- Claim C9: `multiplier` is the quarter-unit weight divided by 4, giving
exactly 0, 1/4, 1/2, 1, 2 and 4 for the six grades (exact in f32, modelled
in ℚ). -/
theorem multiplier_values :
    Effectiveness.NoEffect.multiplier = 0 ∧
    Effectiveness.Quarter.multiplier = 1/4 ∧
    Effectiveness.Half.multiplier = 1/2 ∧
    Effectiveness.Neutral.multiplier = 1 ∧
    Effectiveness.Double.multiplier = 2 ∧
    Effectiveness.Quadruple.multiplier = 4 ∧
    (∀ e : Effectiveness, e.multiplier = (e.get_multiplier_tocalc : ℚ) / 4) := by
  refine ⟨?_, ?_, ?_, ?_, ?_, ?_, fun e => rfl⟩ <;>
    norm_num [Effectiveness.multiplier, Effectiveness.get_multiplier_tocalc]

/-- Claim C10: every grade's weight lies in {0, 1, 2, 4, 8, 16} and
`from_multiplier` is a left inverse of the weight projection, so its
failure branch is unreachable on weights of valid grades. -/
theorem weight_round_trip :
    ∀ e : Effectiveness,
      Effectiveness.from_multiplier e.get_multiplier_tocalc = some e ∧
      e.get_multiplier_tocalc ∈ ([0, 1, 2, 4, 8, 16] : List Nat) := by
  decide
